import Mathlib

/-!
Shallow embedding of the fastapi-auth-tutorial repository
(src/jwt_utils.py, src/auth_utils.py, src/database.py, src/main.py).

Conventions of the embedding:
  * Timestamps are natural numbers (seconds since the epoch); the clock
    value that Python reads via datetime.utcnow() is passed explicitly as
    a parameter named now (sampled once per call).
  * JSON payloads are association lists from string keys to JValue.
  * The JWT machinery of the python-jose library (jose.jwt.encode and
    jose.jwt.decode together with its claim validators) is embedded
    symbolically: a signed token is a record of its payload, signing key
    and algorithm, and signature verification succeeds exactly when the
    verifying key and an allowed algorithm match the signing ones.
    Structurally invalid token strings are the Token.malformed case.
  * The bcrypt hashing of the passlib library is embedded symbolically:
    a well-formed hash is the bcrypt identifier followed by a salt and a
    digest, the digest being an injective function of salt and password
    (collisions of the real digest are ignored, as usual in symbolic
    models). passlib raises UnknownHashError when the hash string cannot
    be identified; fallible Python functions are embedded in Except.
  * The database is a list of User records; SQLAlchemy query .first()
    is List.find?, and the serial id column assigns max-id-plus-one.
-/

/-- A JSON value as carried in a decoded JWT payload. -/
inductive JValue where
  | str (s : String)
  | bool (b : Bool)
  | num (n : Nat)
  | null
deriving DecidableEq, Repr

/-- A decoded JWT payload: an association list of claims. -/
abbrev Claims := List (String × JValue)

/-- Python dict.get: returns None both when the key is absent and when the
stored value is JSON null (Python None). -/
def pyGet (m : Claims) (k : String) : Option JValue :=
  match m.lookup k with
  | none => none
  | some JValue.null => none
  | some v => some v

/-- Python dict update with a single key: replace in place when the key is
present, append otherwise. -/
def dictUpdate (m : Claims) (k : String) (v : JValue) : Claims :=
  if (m.lookup k).isSome then
    m.map (fun kv => if kv.1 == k then (k, v) else kv)
  else
    m ++ [(k, v)]

/-- Python int() coercion as used by the jose claim validators: numbers are
themselves, booleans are 0 or 1, numeric strings parse; anything else
fails (modelled as none, which the validators turn into a claims error). -/
def jint : JValue → Option Nat
  | JValue.num n => some n
  | JValue.bool b => some (if b then 1 else 0)
  | JValue.str s => s.toNat?
  | JValue.null => none

/-- A JWT string, symbolically: either a structurally valid signed token
(payload, signing key, header algorithm) or a malformed string. -/
inductive Token where
  | signed (payload : Claims) (key : String) (alg : String)
  | malformed (s : String)
deriving DecidableEq, Repr

/-- src/jwt_utils.py: SECRET_KEY (the os.getenv default). -/
def SECRET_KEY : String := "your-super-secret-key-change-in-production"

/-- src/jwt_utils.py: ALGORITHM. -/
def ALGORITHM : String := "HS256"

/-- src/jwt_utils.py: ACCESS_TOKEN_EXPIRE_MINUTES. -/
def ACCESS_TOKEN_EXPIRE_MINUTES : Nat := 30

/-- The failure modes of jose.jwt.decode, all subclasses of JWTError:
malformed structure, disallowed algorithm, signature mismatch, invalid
claim format, and expiry. -/
inductive JoseError where
  | malformed
  | invalidAlg
  | signatureFailed
  | claimsError
  | expiredSignature
deriving DecidableEq, Repr

/-- jose jwt._validate_iat: when present, iat must coerce to an int. -/
def check_iat (claims : Claims) : Except JoseError Unit :=
  match claims.lookup "iat" with
  | none => Except.ok ()
  | some v => match jint v with
    | some _ => Except.ok ()
    | none => Except.error JoseError.claimsError

/-- jose jwt._validate_nbf with leeway 0: when present, nbf must coerce to
an int and must not lie in the future. -/
def check_nbf (claims : Claims) (now : Nat) : Except JoseError Unit :=
  match claims.lookup "nbf" with
  | none => Except.ok ()
  | some v => match jint v with
    | none => Except.error JoseError.claimsError
    | some n => if now < n then Except.error JoseError.claimsError else Except.ok ()

/-- jose jwt._validate_exp with leeway 0: when present, exp must coerce to
an int, and the token is expired exactly when exp is strictly below now
(note the strict comparison: at now = exp the token is still valid). -/
def check_exp (claims : Claims) (now : Nat) : Except JoseError Unit :=
  match claims.lookup "exp" with
  | none => Except.ok ()
  | some v => match jint v with
    | none => Except.error JoseError.claimsError
    | some e => if e < now then Except.error JoseError.expiredSignature else Except.ok ()

/-- jose jwt._validate_aud with audience None (as called from
src/jwt_utils.py): an absent aud claim passes, a present one always fails
because None is never a member of the audience list. -/
def check_aud (claims : Claims) : Except JoseError Unit :=
  match claims.lookup "aud" with
  | none => Except.ok ()
  | some _ => Except.error JoseError.claimsError

/-- jose jwt._validate_sub with subject None: when present, sub must be a
string; no value comparison is made. -/
def check_sub (claims : Claims) : Except JoseError Unit :=
  match claims.lookup "sub" with
  | none => Except.ok ()
  | some (JValue.str _) => Except.ok ()
  | some _ => Except.error JoseError.claimsError

/-- jose jwt._validate_jti: when present, jti must be a string. -/
def check_jti (claims : Claims) : Except JoseError Unit :=
  match claims.lookup "jti" with
  | none => Except.ok ()
  | some (JValue.str _) => Except.ok ()
  | some _ => Except.error JoseError.claimsError

/-- jose jwt._validate_at_hash with access_token None: a present at_hash
claim has nothing to compare against and fails. -/
def check_at_hash (claims : Claims) : Except JoseError Unit :=
  match claims.lookup "at_hash" with
  | none => Except.ok ()
  | some _ => Except.error JoseError.claimsError

/-- jose jwt._validate_claims with the default options (audience None,
issuer None, subject None, leeway 0), in the order of the library source.
Note that no issuer validation happens at all when issuer is None. -/
def validate_claims (claims : Claims) (now : Nat) : Except JoseError Claims := do
  check_iat claims
  check_nbf claims now
  check_exp claims now
  check_aud claims
  check_sub claims
  check_jti claims
  check_at_hash claims
  pure claims

/-- jose jwt.decode token key algorithms, at clock value now: a malformed
string fails first, then the header algorithm must be allowed, then the
signature must verify (symbolically: the signing key equals the verifying
key), then the claims are validated. On all-pass the decoded payload is
returned. -/
def jose_decode (token : Token) (key : String) (algorithms : List String)
    (now : Nat) : Except JoseError Claims :=
  match token with
  | Token.malformed _ => Except.error JoseError.malformed
  | Token.signed payload tkey talg =>
    if algorithms.contains talg then
      if tkey == key then validate_claims payload now
      else Except.error JoseError.signatureFailed
    else Except.error JoseError.invalidAlg

/-- src/jwt_utils.py create_access_token: copies data, computes expire as
now plus the delta when a truthy delta is given (a zero timedelta is falsy
in Python and falls back to the default!) or now plus 30 minutes, stores
it under exp, and signs with SECRET_KEY and ALGORITHM. -/
def create_access_token (data : Claims) (expires_delta : Option Nat)
    (now : Nat) : Token :=
  let expire :=
    match expires_delta with
    | some d => if d == 0 then now + ACCESS_TOKEN_EXPIRE_MINUTES * 60 else now + d
    | none => now + ACCESS_TOKEN_EXPIRE_MINUTES * 60
  Token.signed (dictUpdate data "exp" (JValue.num expire)) SECRET_KEY ALGORITHM

/-- src/jwt_utils.py verify_token: decodes with SECRET_KEY and [ALGORITHM];
any JWTError is caught and collapsed to None, a payload whose sub is None
is also None, otherwise the payload is returned. -/
def verify_token (token : Token) (now : Nat) : Option Claims :=
  match jose_decode token SECRET_KEY [ALGORITHM] now with
  | Except.error _ => none
  | Except.ok payload =>
    match pyGet payload "sub" with
    | none => none
    | some _ => some payload

/-- src/jwt_utils.py create_token_for_user: fixed payload with sub, admin,
iat and iss, then create_access_token with the default expiry. -/
def create_token_for_user (username : String) (is_admin : Bool)
    (now : Nat) : Token :=
  create_access_token
    [("sub", JValue.str username),
     ("admin", JValue.bool is_admin),
     ("iat", JValue.num now),
     ("iss", JValue.str "fastapi-jwt-issuer")]
    none now

example : verify_token (create_token_for_user "alice" true 100) 200
    = some [("sub", JValue.str "alice"), ("admin", JValue.bool true),
            ("iat", JValue.num 100), ("iss", JValue.str "fastapi-jwt-issuer"),
            ("exp", JValue.num 1900)] := by decide

example : verify_token (create_token_for_user "alice" true 100) 1901 = none := by decide

deriving instance DecidableEq for Except

/-- Python str.startswith, on the character-list model of strings. -/
def pyStartsWith (s p : String) : Bool :=
  p.data.isPrefixOf s.data

/-- Remove the first n characters, on the character-list model of strings. -/
def pyDrop (s : String) (n : Nat) : String :=
  String.mk (s.data.drop n)

/-- Split a character list at every occurrence of the separator; adjacent
separators yield empty pieces, exactly as Python str.split with an
explicit separator does. -/
def splitCharList (sep : Char) : List Char → List (List Char)
  | [] => [[]]
  | c :: cs =>
    match splitCharList sep cs with
    | [] => if c == sep then [[], []] else [[c]]
    | h :: t => if c == sep then [] :: h :: t else (c :: h) :: t

/-- Python str.split with a one-character separator, on the character-list
model of strings. -/
def pySplit (s : String) (sep : Char) : List String :=
  (splitCharList sep s.data).map String.mk

/-- The modular-crypt identifier that passlib uses to recognize a bcrypt
hash (scheme and the fixed work factor of the CryptContext). -/
def bcrypt_ident : String := "$2b$12$"

/-- Symbolic bcrypt digest over an embedded salt: treated as an injective
function of salt and password, standing in for the real one-way digest. -/
def bcrypt_digest (salt password : String) : String :=
  salt ++ ":" ++ password

/-- passlib hash identification: a hash string is structurally valid when
it carries the bcrypt identifier followed by a salt, a separator and a
digest; the salt and digest are recovered from it. -/
def parse_bcrypt (h : String) : Option (String × String) :=
  if pyStartsWith h bcrypt_ident then
    match (pyDrop h bcrypt_ident.data.length).data.dropWhile (fun c => c != '|') with
    | [] => none
    | _ :: digest =>
      some (String.mk ((pyDrop h bcrypt_ident.data.length).data.takeWhile (fun c => c != '|')),
            String.mk digest)
  else none

/-- src/auth_utils.py hash_password via passlib pwd_context.hash: embeds a
fresh random salt (passed explicitly here) and the digest into a
structurally valid bcrypt string. -/
def hash_password (password : String) (salt : String) : String :=
  bcrypt_ident ++ salt ++ "|" ++ bcrypt_digest salt password

/-- The exception passlib raises from CryptContext.verify when the hash
string cannot be identified as any configured scheme. -/
inductive PasslibError where
  | unknownHash
deriving DecidableEq, Repr

/-- src/auth_utils.py verify_password via passlib pwd_context.verify: the
hash must first be identified; an unidentifiable hash raises
UnknownHashError (there is no try/except in the source, so the exception
propagates to the caller); otherwise the digest is recomputed over the
embedded salt and compared. -/
def verify_password (plain_password hashed_password : String) :
    Except PasslibError Bool :=
  match parse_bcrypt hashed_password with
  | none => Except.error PasslibError.unknownHash
  | some (salt, digest) => Except.ok (bcrypt_digest salt plain_password == digest)

/-- src/database.py: the User model (created_at as an epoch timestamp). -/
structure User where
  id : Nat
  username : String
  email : String
  hashed_password : String
  is_active : Bool
  is_admin : Bool
  created_at : Nat
deriving DecidableEq, Repr

/-- The serial primary key of the users table: the next id assigned on
insert, modelled as one above the largest id present. -/
def nextId (db : List User) : Nat :=
  (db.map User.id).foldr Nat.max 0 + 1

/-- src/auth_utils.py get_user_by_username: filter by username, .first(). -/
def get_user_by_username (db : List User) (username : String) : Option User :=
  db.find? (fun u => u.username == username)

/-- src/auth_utils.py create_user: checks for an existing user with the
same username OR email, raises ValueError on collision (no state change),
otherwise hashes the password and inserts a User whose is_active column
defaults to true; returns the new database and the created user. The
fresh salt and the clock are explicit parameters. -/
def create_user (db : List User) (username email password : String)
    (is_admin : Bool) (salt : String) (now : Nat) :
    Except Unit (List User × User) :=
  match db.find? (fun u => u.username == username || u.email == email) with
  | some _ => Except.error ()
  | none =>
    let user : User :=
      { id := nextId db, username := username, email := email,
        hashed_password := hash_password password salt,
        is_active := true, is_admin := is_admin, created_at := now }
    Except.ok (db ++ [user], user)

/-- src/auth_utils.py authenticate_user: lookup by username, None on miss;
verify the password (an UnknownHashError from passlib would propagate),
None on mismatch, the user on success. -/
def authenticate_user (db : List User) (username password : String) :
    Except PasslibError (Option User) :=
  match get_user_by_username db username with
  | none => Except.ok none
  | some user =>
    match verify_password password user.hashed_password with
    | Except.error e => Except.error e
    | Except.ok ok => Except.ok (if ok then some user else none)

/-- A FastAPI HTTPException as seen by the caller: status code and detail. -/
structure HTTPError where
  status : Nat
  detail : String
deriving DecidableEq, Repr

/-- What the login endpoint can fail with: the HTTPException it raises
itself, or an uncaught exception escaping from passlib. -/
inductive LoginError where
  | http (e : HTTPError)
  | internal (e : PasslibError)
deriving DecidableEq, Repr

/-- The successful response body of POST /login. -/
structure LoginResponse where
  access_token : Token
  token_type : String
  username : String
  is_admin : Bool
  message : String
deriving DecidableEq, Repr

/-- src/main.py login: authenticate, raise 401 with a single fixed detail
when authentication returns None (for both failure causes), otherwise
issue a token for the user and echo username and admin flag. -/
def login (db : List User) (username password : String) (now : Nat) :
    Except LoginError LoginResponse :=
  match authenticate_user db username password with
  | Except.error e => Except.error (LoginError.internal e)
  | Except.ok none =>
    Except.error (LoginError.http { status := 401, detail := "Invalid username or password" })
  | Except.ok (some user) =>
    Except.ok
      { access_token := create_token_for_user user.username user.is_admin now,
        token_type := "bearer", username := user.username,
        is_admin := user.is_admin, message := "Login successful!" }

/-- The successful response body of POST /signup. -/
structure SignupResponse where
  message : String
  user_id : Nat
  username : String
  email : String
deriving DecidableEq, Repr

/-- src/main.py signup: create_user inside try; a ValueError becomes an
HTTPException 400 carrying its message and the database is unchanged;
on success the response echoes the assigned id, username and email. -/
def signup (db : List User) (username email password : String)
    (salt : String) (now : Nat) :
    List User × Except HTTPError SignupResponse :=
  match create_user db username email password false salt now with
  | Except.error () =>
    (db, Except.error
      { status := 400,
        detail := "User with this username or email already exists" })
  | Except.ok (db2, user) =>
    (db2, Except.ok
      { message := "Account created successfully", user_id := user.id,
        username := user.username, email := user.email })

/-- src/main.py get_current_user: the request-level authorization chain.
The parse parameter is the ambient JWT wire format, mapping the extracted
token substring to the Token it denotes. A missing header, and also an
empty one (Python falsiness), is rejected first; then the header must
start with the literal Bearer prefix; the token is the substring after
the first space; verify_token failures are uniform; a falsy sub in the
payload is rejected; finally the subject is resolved in the database. -/
def get_current_user (parse : String → Token) (authorization : Option String)
    (db : List User) (now : Nat) : Except HTTPError User :=
  match authorization with
  | none => Except.error { status := 401, detail := "Authorization header required" }
  | some auth =>
    if auth == "" then
      Except.error { status := 401, detail := "Authorization header required" }
    else if !(pyStartsWith auth "Bearer ") then
      Except.error { status := 401, detail := "Invalid authorization header format" }
    else
      let token := parse (((pySplit auth ' ').drop 1).headD "")
      match verify_token token now with
      | none => Except.error { status := 401, detail := "Invalid or expired token" }
      | some payload =>
        match pyGet payload "sub" with
        | some (JValue.str username) =>
          if username == "" then
            Except.error { status := 401, detail := "Invalid token payload" }
          else
            match get_user_by_username db username with
            | none => Except.error { status := 401, detail := "User not found" }
            | some user => Except.ok user
        | _ => Except.error { status := 401, detail := "Invalid token payload" }

/-- src/main.py get_current_admin_user: only the persisted is_admin flag
of the resolved user is consulted. -/
def get_current_admin_user (current_user : User) : Except HTTPError User :=
  if current_user.is_admin then Except.ok current_user
  else Except.error { status := 403, detail := "Admin privileges required" }

/-- The dependency chain guarding GET /admin: get_current_user and then
get_current_admin_user, short-circuiting on failure. -/
def admin_chain (parse : String → Token) (authorization : Option String)
    (db : List User) (now : Nat) : Except HTTPError User :=
  match get_current_user parse authorization db now with
  | Except.error e => Except.error e
  | Except.ok user => get_current_admin_user user

/-- The claims list built by create_token_for_user together with an
arbitrary (possibly absent, possibly non-string) iss entry in its place. -/
def claims_with_iss (u : String) (a : Bool) (i : Nat) (issv : Option JValue)
    (e : Nat) : Claims :=
  [("sub", JValue.str u), ("admin", JValue.bool a), ("iat", JValue.num i)]
    ++ (match issv with | none => [] | some v => [("iss", v)])
    ++ [("exp", JValue.num e)]

/-- Helper: verify_token on a token produced by create_token_for_user is
none exactly after the strict 30-minute expiry, and otherwise returns the
full five-claim payload. -/
theorem verify_token_create_token (u : String) (a : Bool) (t0 now : Nat) :
    verify_token (create_token_for_user u a t0) now
      = if t0 + 1800 < now then none
        else some [("sub", JValue.str u), ("admin", JValue.bool a),
                   ("iat", JValue.num t0), ("iss", JValue.str "fastapi-jwt-issuer"),
                   ("exp", JValue.num (t0 + 1800))] := by
  by_cases h : t0 + 1800 < now <;>
    simp [verify_token, jose_decode, validate_claims, check_iat, check_nbf,
      check_exp, check_aud, check_sub, check_jti, check_at_hash,
      create_token_for_user, create_access_token, dictUpdate, pyGet,
      List.lookup, SECRET_KEY, ALGORITHM, ACCESS_TOKEN_EXPIRE_MINUTES,
      Bind.bind, Except.bind, Pure.pure, Except.pure, jint, h]

/-- C8. The issued token for a user is signed with HMAC-SHA-256 (HS256)
under the server-held secret key, and its payload is exactly the mapping
sub = username, admin = isAdmin, iat = now, iss = the fixed issuer
constant, exp = now plus the default 30-minute ttl. -/
theorem token_payload_exact (username : String) (is_admin : Bool) (now : Nat) :
    create_token_for_user username is_admin now
      = Token.signed
          [("sub", JValue.str username), ("admin", JValue.bool is_admin),
           ("iat", JValue.num now), ("iss", JValue.str "fastapi-jwt-issuer"),
           ("exp", JValue.num (now + 30 * 60))]
          SECRET_KEY "HS256" := by
  simp [create_token_for_user, create_access_token, dictUpdate, List.lookup,
    ALGORITHM, ACCESS_TOKEN_EXPIRE_MINUTES]

/-- C2, counterexample. A token issued through create_access_token with
ttl = 0 at time 100 and verified at now = issuedAt = 100 is NOT Expired:
verification succeeds (and the stored exp is 1900, not 100, because a
zero timedelta is falsy and the code silently falls back to the default
30-minute ttl). Moreover even a raw signed token whose exp equals now
still verifies: the expiry comparison of the library is strict, so the
claimed inclusive boundary now >= expiresAt does not hold on the code. -/
theorem expiry_boundary_counterexample :
    verify_token (create_access_token [("sub", JValue.str "alice")] (some 0) 100) 100
        = some [("sub", JValue.str "alice"), ("exp", JValue.num 1900)]
    ∧ verify_token (Token.signed [("sub", JValue.str "a"), ("exp", JValue.num 100)]
          SECRET_KEY "HS256") 100
        = some [("sub", JValue.str "a"), ("exp", JValue.num 100)] := by
  constructor <;> decide

/-- C2, amended. Expiry is strict: a token issued by this authority at t0
fails verification exactly when now exceeds t0 + 1800 (that is, now is
strictly greater than expiresAt); at now = expiresAt it still verifies.
Furthermore a ttl of zero is not expressible: a zero expires_delta is
falsy in Python and create_access_token falls back to the default
30-minute ttl, so the payload of a some-0 issuance coincides with the
default issuance. -/
theorem expiry_boundary_strict (u : String) (a : Bool) (t0 now : Nat)
    (data : Claims) :
    (verify_token (create_token_for_user u a t0) now = none ↔ t0 + 1800 < now)
    ∧ create_access_token data (some 0) t0 = create_access_token data none t0 := by
  constructor
  · rw [verify_token_create_token]
    by_cases h : t0 + 1800 < now <;> simp [h]
  · rfl

/-- C9. Token verification never validates the issuer claim: a token
signed with the secret key and the expected algorithm, not yet expired
and carrying a subject, is accepted and its claims returned whatever the
iss claim holds - including when iss is absent or is not even a string. -/
theorem issuer_never_checked (u : String) (a : Bool) (i e now : Nat)
    (issv : Option JValue) (hexp : now ≤ e) :
    verify_token (Token.signed (claims_with_iss u a i issv e) SECRET_KEY "HS256") now
      = some (claims_with_iss u a i issv e) := by
  have h : ¬ e < now := Nat.not_lt.mpr hexp
  cases issv <;>
    simp [verify_token, jose_decode, validate_claims, check_iat, check_nbf,
      check_exp, check_aud, check_sub, check_jti, check_at_hash,
      claims_with_iss, pyGet, List.lookup, SECRET_KEY, ALGORITHM,
      Bind.bind, Except.bind, Pure.pure, Except.pure, jint, h]

/-- C9, witness: a well-signed unexpired token whose iss names a different
authority (and is not the fixed constant this authority embeds) is
accepted with its claims returned. -/
theorem issuer_never_checked_witness :
    verify_token
        (Token.signed (claims_with_iss "alice" true 0 (some (JValue.str "another-authority")) 100)
          SECRET_KEY "HS256") 50
      = some (claims_with_iss "alice" true 0 (some (JValue.str "another-authority")) 100) :=
  issuer_never_checked "alice" true 0 100 50 (some (JValue.str "another-authority"))
    (by decide)

/-- C3. A login whose username is not in the repository and a login whose
username resolves but whose password fails verification produce the very
same caller-visible error: the same kind (an HTTP 401 raised by the
endpoint) carrying the same detail string, so the two causes are
indistinguishable to the caller. -/
theorem login_failures_indistinguishable (db : List User) (u1 p1 u2 p2 : String)
    (now1 now2 : Nat) (user : User)
    (h1 : get_user_by_username db u1 = none)
    (h2 : get_user_by_username db u2 = some user)
    (h3 : verify_password p2 user.hashed_password = Except.ok false) :
    login db u1 p1 now1
        = Except.error (LoginError.http { status := 401, detail := "Invalid username or password" })
    ∧ login db u2 p2 now2
        = Except.error (LoginError.http { status := 401, detail := "Invalid username or password" }) := by
  constructor <;> simp [login, authenticate_user, h1, h2, h3]

/-- C3, witness: with a repository holding only bob, logging in as the
unknown alice and logging in as bob with a wrong password yield the
identical error value. -/
theorem login_failures_indistinguishable_witness :
    login [{ id := 1, username := "bob", email := "bob@example.com",
             hashed_password := hash_password "pw" "s1",
             is_active := true, is_admin := false, created_at := 0 }] "alice" "pw" 7
        = Except.error (LoginError.http { status := 401, detail := "Invalid username or password" })
    ∧ login [{ id := 1, username := "bob", email := "bob@example.com",
               hashed_password := hash_password "pw" "s1",
               is_active := true, is_admin := false, created_at := 0 }] "bob" "wrong" 7
        = Except.error (LoginError.http { status := 401, detail := "Invalid username or password" }) :=
  login_failures_indistinguishable
    [{ id := 1, username := "bob", email := "bob@example.com",
       hashed_password := hash_password "pw" "s1",
       is_active := true, is_admin := false, created_at := 0 }]
    "alice" "pw" "bob" "wrong" 7 7
    { id := 1, username := "bob", email := "bob@example.com",
      hashed_password := hash_password "pw" "s1",
      is_active := true, is_admin := false, created_at := 0 }
    (by decide) (by decide) (by decide)

/-- Helper: when the presented bearer token is one this authority issued
for a user resolvable in the repository (nonempty username, token not yet
expired), get_current_user authenticates and returns that user. -/
theorem get_current_user_ok_of_valid (u : User) (db : List User) (b : Bool)
    (t0 now : Nat)
    (hfind : get_user_by_username db u.username = some u)
    (hexp : now ≤ t0 + 1800)
    (hne : u.username ≠ "") :
    get_current_user (fun _ => create_token_for_user u.username b t0)
        (some "Bearer x") db now
      = Except.ok u := by
  have h : ¬ t0 + 1800 < now := Nat.not_lt.mpr hexp
  simp [get_current_user, pyStartsWith, verify_token_create_token, h, pyGet,
    List.lookup, hfind, hne]

/-- C10. The authorization chain never consults is_active: a user whose
persisted is_active flag is false but who presents a valid unexpired
token for their username is authenticated on protected operations and
produced as the principal. -/
theorem inactive_user_authenticates (u : User) (db : List User) (b : Bool)
    (t0 now : Nat)
    (hfind : get_user_by_username db u.username = some u)
    (hexp : now ≤ t0 + 1800)
    (hne : u.username ≠ "")
    (_hinactive : u.is_active = false) :
    get_current_user (fun _ => create_token_for_user u.username b t0)
        (some "Bearer x") db now
      = Except.ok u :=
  get_current_user_ok_of_valid u db b t0 now hfind hexp hne

/-- C10, witness: a deactivated bob still authenticates on /me. -/
theorem inactive_user_authenticates_witness :
    get_current_user (fun _ => create_token_for_user "bob" false 0)
        (some "Bearer x")
        [{ id := 2, username := "bob", email := "bob@example.com",
           hashed_password := hash_password "pw" "s2",
           is_active := false, is_admin := false, created_at := 0 }] 10
      = Except.ok
          { id := 2, username := "bob", email := "bob@example.com",
            hashed_password := hash_password "pw" "s2",
            is_active := false, is_admin := false, created_at := 0 } :=
  inactive_user_authenticates
    { id := 2, username := "bob", email := "bob@example.com",
      hashed_password := hash_password "pw" "s2",
      is_active := false, is_admin := false, created_at := 0 }
    [{ id := 2, username := "bob", email := "bob@example.com",
       hashed_password := hash_password "pw" "s2",
       is_active := false, is_admin := false, created_at := 0 }]
    false 0 10 (by decide) (by decide) (by decide) (by decide)

/-- C1, counterexample. The admin chain grants access to a user whose
persisted is_admin is true although the presented token embeds the admin
claim false: the conjunction claims.isAdmin AND user.isAdmin is not what
the code requires - the embedded admin claim of the token is never read
by the authorization chain. -/
theorem admin_conjunction_counterexample :
    admin_chain (fun _ => create_token_for_user "alice" false 0)
        (some "Bearer x")
        [{ id := 1, username := "alice", email := "alice@example.com",
           hashed_password := hash_password "pw" "s1",
           is_active := true, is_admin := true, created_at := 0 }] 10
      = Except.ok
          { id := 1, username := "alice", email := "alice@example.com",
            hashed_password := hash_password "pw" "s1",
            is_active := true, is_admin := true, created_at := 0 } := by
  decide

/-- C1, amended. Admin authorization is decided by the persisted is_admin
flag alone: for a valid token carrying any embedded admin claim b, the
chain returns the user when the persisted flag is true and fails with the
403 InsufficientPrivilege error when it is false - in particular a
principal whose persisted is_admin is false is rejected even when b is
true, and b never influences the outcome. -/
theorem admin_requires_persisted_flag_only (u : User) (db : List User)
    (b : Bool) (t0 now : Nat)
    (hfind : get_user_by_username db u.username = some u)
    (hexp : now ≤ t0 + 1800)
    (hne : u.username ≠ "") :
    admin_chain (fun _ => create_token_for_user u.username b t0)
        (some "Bearer x") db now
      = if u.is_admin then Except.ok u
        else Except.error { status := 403, detail := "Admin privileges required" } := by
  rw [admin_chain, get_current_user_ok_of_valid u db b t0 now hfind hexp hne]
  rfl

/-- C1, witness: carol, persisted non-admin, presents a token whose
embedded admin claim is true and is still rejected with the 403 error. -/
theorem admin_requires_persisted_flag_only_witness :
    admin_chain (fun _ => create_token_for_user "carol" true 5)
        (some "Bearer x")
        [{ id := 3, username := "carol", email := "carol@example.com",
           hashed_password := hash_password "pw" "s3",
           is_active := true, is_admin := false, created_at := 0 }] 100
      = Except.error { status := 403, detail := "Admin privileges required" } :=
  (admin_requires_persisted_flag_only
    { id := 3, username := "carol", email := "carol@example.com",
      hashed_password := hash_password "pw" "s3",
      is_active := true, is_admin := false, created_at := 0 }
    [{ id := 3, username := "carol", email := "carol@example.com",
       hashed_password := hash_password "pw" "s3",
       is_active := true, is_admin := false, created_at := 0 }]
    true 5 100 (by decide) (by decide) (by decide)).trans (by decide)

/-- C7, counterexample. A present but empty authorization carrier is falsy
in Python, so the code rejects it with the MissingAuthorization error
(Authorization header required) and not with the MalformedAuthorization
one, although it is a present carrier not of the Bearer form: the claim
that every present non-Bearer carrier gets the malformed error fails. -/
theorem auth_header_empty_counterexample :
    get_current_user (fun s => Token.malformed s) (some "") [] 0
      = Except.error { status := 401, detail := "Authorization header required" } := by
  decide

/-- C7, amended. A missing carrier - and likewise a present empty one,
by Python falsiness - fails with the MissingAuthorization error, while a
present nonempty carrier that does not start with the literal Bearer
prefix (such as Basic xyz) fails with the distinct MalformedAuthorization
error; the two error values differ. -/
theorem auth_header_errors_distinct (parse : String → Token) (db : List User)
    (now : Nat) (h : String)
    (hne : h ≠ "")
    (hnb : pyStartsWith h "Bearer " = false) :
    get_current_user parse none db now
        = Except.error { status := 401, detail := "Authorization header required" }
    ∧ get_current_user parse (some "") db now
        = Except.error { status := 401, detail := "Authorization header required" }
    ∧ get_current_user parse (some h) db now
        = Except.error { status := 401, detail := "Invalid authorization header format" }
    ∧ ({ status := 401, detail := "Authorization header required" } : HTTPError)
        ≠ { status := 401, detail := "Invalid authorization header format" } := by
  refine ⟨rfl, rfl, ?_, by decide⟩
  simp [get_current_user, hnb, hne]

/-- C7, witness: the header Basic xyz draws the malformed-authorization
error, absence draws the missing-authorization error, and they differ. -/
theorem auth_header_errors_distinct_witness :
    get_current_user (fun s => Token.malformed s) none [] 0
        = Except.error { status := 401, detail := "Authorization header required" }
    ∧ get_current_user (fun s => Token.malformed s) (some "") [] 0
        = Except.error { status := 401, detail := "Authorization header required" }
    ∧ get_current_user (fun s => Token.malformed s) (some "Basic xyz") [] 0
        = Except.error { status := 401, detail := "Invalid authorization header format" }
    ∧ ({ status := 401, detail := "Authorization header required" } : HTTPError)
        ≠ { status := 401, detail := "Invalid authorization header format" } :=
  auth_header_errors_distinct (fun s => Token.malformed s) [] 0 "Basic xyz"
    (by decide) (by decide)

/-- C6. Signup checks existence by username OR email: when some persisted
user collides on either, it fails with the duplicate-credential error and
the repository is returned unchanged; when no user collides, it appends
exactly one new User carrying the freshly assigned id, the hash of the
password, is_active true and is_admin false, and the response echoes the
assigned id, username and email. -/
theorem signup_duplicate_or_create (db : List User) (u e p salt : String)
    (now : Nat) :
    ((∃ x ∈ db, x.username = u ∨ x.email = e) →
      signup db u e p salt now
        = (db, Except.error
            { status := 400,
              detail := "User with this username or email already exists" }))
    ∧ ((∀ x ∈ db, x.username ≠ u ∧ x.email ≠ e) →
      signup db u e p salt now
        = (db ++ [{ id := nextId db, username := u, email := e,
                    hashed_password := hash_password p salt,
                    is_active := true, is_admin := false, created_at := now }],
           Except.ok { message := "Account created successfully",
                       user_id := nextId db, username := u, email := e })) := by
  constructor
  · rintro ⟨x, hx, hcoll⟩
    have hp : (x.username == u || x.email == e) = true := by
      cases hcoll with
      | inl hh => simp [hh]
      | inr hh => simp [hh]
    have hsome : (db.find? (fun x => x.username == u || x.email == e)).isSome := by
      rw [List.find?_isSome]
      exact ⟨x, hx, hp⟩
    obtain ⟨y, hy⟩ := Option.isSome_iff_exists.mp hsome
    simp [signup, create_user, hy]
  · intro hall
    have hf : db.find? (fun x => x.username == u || x.email == e) = none := by
      rw [List.find?_eq_none]
      intro x hx
      have := hall x hx
      simp [this.1, this.2]
    simp [signup, create_user, hf]

/-- C6, witness: signing up alice on an empty repository succeeds and
persists exactly her record with id 1, is_admin false and is_active true;
signing up alice again (with a different email) fails with the duplicate
error and leaves the repository exactly as it was. -/
theorem signup_duplicate_or_create_witness :
    signup [] "alice" "alice@example.com" "pw" "s1" 0
        = ([{ id := 1, username := "alice", email := "alice@example.com",
              hashed_password := hash_password "pw" "s1",
              is_active := true, is_admin := false, created_at := 0 }],
           Except.ok { message := "Account created successfully", user_id := 1,
                       username := "alice", email := "alice@example.com" })
    ∧ signup [{ id := 1, username := "alice", email := "alice@example.com",
                hashed_password := hash_password "pw" "s1",
                is_active := true, is_admin := false, created_at := 0 }]
          "alice" "other@example.com" "pw2" "s2" 5
        = ([{ id := 1, username := "alice", email := "alice@example.com",
              hashed_password := hash_password "pw" "s1",
              is_active := true, is_admin := false, created_at := 0 }],
           Except.error
             { status := 400,
               detail := "User with this username or email already exists" }) := by
  constructor
  · exact ((signup_duplicate_or_create [] "alice" "alice@example.com" "pw" "s1" 0).2
      (by simp)).trans (by decide)
  · exact (signup_duplicate_or_create
      [{ id := 1, username := "alice", email := "alice@example.com",
         hashed_password := hash_password "pw" "s1",
         is_active := true, is_admin := false, created_at := 0 }]
      "alice" "other@example.com" "pw2" "s2" 5).1
      ⟨{ id := 1, username := "alice", email := "alice@example.com",
         hashed_password := hash_password "pw" "s1",
         is_active := true, is_admin := false, created_at := 0 },
       List.mem_singleton.mpr rfl, Or.inl rfl⟩

/-- Helper: an Except bind yields ok exactly when both stages do. -/
theorem except_bind_ok {γ α β : Type} (e : Except γ α) (f : α → Except γ β)
    (c : β) :
    (e >>= f) = Except.ok c ↔ ∃ a, e = Except.ok a ∧ f a = Except.ok c := by
  cases e <;> simp [Bind.bind, Except.bind]

/-- Helper: when validate_claims succeeds it returns its input unchanged. -/
theorem validate_claims_ok_imp (p : Claims) (now : Nat) (c : Claims)
    (h : validate_claims p now = Except.ok c) : c = p := by
  simp only [validate_claims, except_bind_ok] at h
  obtain ⟨_, _, _, _, _, _, _, _, _, _, _, _, _, _, hpure⟩ := h
  simpa [Pure.pure, Except.pure] using hpure.symm

/-- Helper: a payload carrying a numeric exp claim strictly below now can
never pass claim validation (some validator before or at the exp check
fails, the exp check itself with ExpiredSignatureError). -/
theorem validate_claims_error_of_expired (p : Claims) (now e : Nat)
    (hexp : p.lookup "exp" = some (JValue.num e)) (hlt : e < now) :
    ∃ err, validate_claims p now = Except.error err := by
  have h3 : check_exp p now = Except.error JoseError.expiredSignature := by
    simp [check_exp, hexp, jint, hlt]
  cases h1 : check_iat p with
  | error err => exact ⟨err, by simp [validate_claims, Bind.bind, Except.bind, h1]⟩
  | ok v =>
    cases h2 : check_nbf p now with
    | error err => exact ⟨err, by simp [validate_claims, Bind.bind, Except.bind, h1, h2]⟩
    | ok w =>
      exact ⟨JoseError.expiredSignature,
        by simp [validate_claims, Bind.bind, Except.bind, h1, h2, h3]⟩

/-- C4, counterexample. Four structurally different failure modes - a
malformed token, a token signed under a different key, an expired token,
and a token lacking a subject - all produce the identical caller-visible
result none from verify_token: the function does not return a distinct
failure reason per failure mode. -/
theorem verify_failure_reasons_collapse_counterexample :
    verify_token (Token.malformed "garbage") 50 = none
    ∧ verify_token (Token.signed [("sub", JValue.str "u"), ("exp", JValue.num 100)]
          "another-key" "HS256") 50 = none
    ∧ verify_token (Token.signed [("sub", JValue.str "u"), ("exp", JValue.num 40)]
          SECRET_KEY "HS256") 50 = none
    ∧ verify_token (Token.signed [("exp", JValue.num 100)] SECRET_KEY "HS256") 50
        = none := by
  refine ⟨by decide, by decide, by decide, by decide⟩

/-- C4, amended. The distinct failure reasons exist only inside the
library (the caught exception classes); verify_token itself collapses
every failure mode - structurally invalid token, signature mismatch,
expiry, missing subject - to the single value none, and returns the
decoded claims only when decoding fully succeeds and a subject is
present. -/
theorem verify_failure_reasons_collapse (payload : Claims) (key alg s : String)
    (now : Nat) :
    verify_token (Token.malformed s) now = none
    ∧ (key ≠ SECRET_KEY → verify_token (Token.signed payload key alg) now = none)
    ∧ (alg ≠ ALGORITHM → verify_token (Token.signed payload key alg) now = none)
    ∧ (∀ e, payload.lookup "exp" = some (JValue.num e) → e < now →
        verify_token (Token.signed payload SECRET_KEY ALGORITHM) now = none)
    ∧ (payload.lookup "sub" = none →
        verify_token (Token.signed payload SECRET_KEY ALGORITHM) now = none)
    ∧ (∀ u, payload.lookup "sub" = some (JValue.str u) →
        jose_decode (Token.signed payload SECRET_KEY ALGORITHM) SECRET_KEY
            [ALGORITHM] now = Except.ok payload →
        verify_token (Token.signed payload SECRET_KEY ALGORITHM) now
          = some payload) := by
  refine ⟨rfl, ?_, ?_, ?_, ?_, ?_⟩
  · intro hkey
    by_cases halg2 : alg = ALGORITHM <;>
      simp [verify_token, jose_decode, halg2, hkey]
  · intro halg
    simp [verify_token, jose_decode, halg]
  · intro e hexp hlt
    obtain ⟨err, herr⟩ := validate_claims_error_of_expired payload now e hexp hlt
    simp [verify_token, jose_decode, ALGORITHM, herr]
  · intro hsub
    simp only [verify_token]
    cases hd : jose_decode (Token.signed payload SECRET_KEY ALGORITHM) SECRET_KEY
        [ALGORITHM] now with
    | error err => rfl
    | ok c =>
      have hc : c = payload := by
        have : validate_claims payload now = Except.ok c := by
          simpa [jose_decode, ALGORITHM, List.contains] using hd
        exact validate_claims_ok_imp payload now c this
      subst hc
      simp [pyGet, hsub]
  · intro u hsub hdec
    simp [verify_token, hdec, pyGet, hsub]

/-- C4, witness: the collapse theorem applied at concrete inputs for each
failure mode and for the success mode. -/
theorem verify_failure_reasons_collapse_witness :
    verify_token (Token.malformed "zz") 9 = none
    ∧ verify_token (Token.signed [("sub", JValue.str "u")] "bad-key" "HS256") 9 = none
    ∧ verify_token (Token.signed [("sub", JValue.str "u")] SECRET_KEY "none") 9 = none
    ∧ verify_token (Token.signed [("sub", JValue.str "u"), ("exp", JValue.num 3)]
          SECRET_KEY ALGORITHM) 9 = none
    ∧ verify_token (Token.signed [("admin", JValue.bool true)] SECRET_KEY ALGORITHM) 9
        = none
    ∧ verify_token (Token.signed [("sub", JValue.str "u")] SECRET_KEY ALGORITHM) 9
        = some [("sub", JValue.str "u")] := by
  refine ⟨(verify_failure_reasons_collapse [] "bad-key" "none" "zz" 9).1,
    (verify_failure_reasons_collapse [("sub", JValue.str "u")] "bad-key" "HS256" "zz" 9).2.1
      (by decide),
    (verify_failure_reasons_collapse [("sub", JValue.str "u")] SECRET_KEY "none" "zz" 9).2.2.1
      (by decide),
    (verify_failure_reasons_collapse [("sub", JValue.str "u"), ("exp", JValue.num 3)]
      "k" "a" "zz" 9).2.2.2.1 3 (by decide) (by decide),
    (verify_failure_reasons_collapse [("admin", JValue.bool true)] "k" "a" "zz" 9).2.2.2.2.1
      (by decide),
    (verify_failure_reasons_collapse [("sub", JValue.str "u")] "k" "a" "zz" 9).2.2.2.2.2
      "u" (by decide) (by decide)⟩

/-- Helper: takeWhile up to a separator recovers the part before an
occurrence when the prefix is free of the separator. -/
theorem takeWhile_append_sep (xs ys : List Char) (hx : '|' ∉ xs) :
    (xs ++ '|' :: ys).takeWhile (fun c => c != '|') = xs := by
  induction xs with
  | nil => simp [List.takeWhile]
  | cons c cs ih =>
    have hc : (c != '|') = true := by
      simp only [bne_iff_ne, ne_eq]
      intro h
      exact hx (h ▸ List.mem_cons_self c cs)
    simp [List.takeWhile, hc, ih (fun h => hx (List.mem_cons_of_mem c h))]

/-- Helper: dropWhile up to a separator finds the first occurrence when
the prefix is free of the separator. -/
theorem dropWhile_append_sep (xs ys : List Char) (hx : '|' ∉ xs) :
    (xs ++ '|' :: ys).dropWhile (fun c => c != '|')
      = '|' :: ys := by
  induction xs with
  | nil => simp [List.dropWhile]
  | cons c cs ih =>
    have hc : (c != '|') = true := by
      simp only [bne_iff_ne, ne_eq]
      intro h
      exact hx (h ▸ List.mem_cons_self c cs)
    simp [List.dropWhile, hc, ih (fun h => hx (List.mem_cons_of_mem c h))]

/-- Helper: a hash produced by hash_password over a separator-free salt is
identified by passlib and parses back into its salt and digest. -/
theorem parse_bcrypt_hash_password (p s : String) (hs : '|' ∉ s.data) :
    parse_bcrypt (hash_password p s) = some (s, bcrypt_digest s p) := by
  have hdata : (hash_password p s).data
      = bcrypt_ident.data ++ (s.data ++ '|' :: (bcrypt_digest s p).data) := by
    simp [hash_password, String.data_append]
  have hpre : pyStartsWith (hash_password p s) bcrypt_ident = true := by
    rw [pyStartsWith, hdata, List.isPrefixOf_iff_prefix]
    exact List.prefix_append _ _
  have hdrop : (pyDrop (hash_password p s) bcrypt_ident.data.length).data
      = s.data ++ '|' :: (bcrypt_digest s p).data := by
    simp [pyDrop, hdata, List.drop_left]
  rw [parse_bcrypt, if_pos hpre]
  rw [hdrop, dropWhile_append_sep _ _ hs, takeWhile_append_sep _ _ hs]

/-- Helper: verifying any plaintext against a structurally valid hash of
password p under a separator-free salt returns the boolean equality of
the plaintext with p (true exactly on the original password). -/
theorem verify_password_hash_password (plain p s : String)
    (hs : '|' ∉ s.data) :
    verify_password plain (hash_password p s) = Except.ok (plain == p) := by
  rw [verify_password, parse_bcrypt_hash_password p s hs]
  by_cases hp : plain = p
  · simp [hp]
  · have h1 : (plain == p) = false := beq_eq_false_iff_ne.mpr hp
    have h2 : bcrypt_digest s plain ≠ bcrypt_digest s p := by
      intro h
      apply hp
      apply String.ext
      have := congrArg String.data h
      simp only [bcrypt_digest, String.data_append] at this
      exact List.append_cancel_left this
    simp [h1, beq_eq_false_iff_ne.mpr h2]

/-- C5, counterexample. Password verification is not total on malformed
hashes: on a structurally invalid opaqueHash the call raises the passlib
UnknownHashError (there is no try/except around pwd_context.verify in
src/auth_utils.py), so the caller fails instead of receiving false. -/
theorem verify_password_raises_counterexample :
    verify_password "pw" "not-a-hash" = Except.error PasslibError.unknownHash := by
  decide

/-- C5, amended. verify(plaintext, opaqueHash) returns a boolean exactly
when the hash is structurally identifiable as a bcrypt hash - and on
well-formed hashes it correctly compares the recomputed digest, never
raising - but when opaqueHash is structurally invalid it raises
UnknownHashError to the caller rather than returning false. -/
theorem verify_password_total_or_raises (plain h p s : String)
    (hs : '|' ∉ s.data) :
    ((∃ b, verify_password plain h = Except.ok b) ↔ (parse_bcrypt h).isSome)
    ∧ (parse_bcrypt h = none →
        verify_password plain h = Except.error PasslibError.unknownHash)
    ∧ verify_password plain (hash_password p s) = Except.ok (plain == p) := by
  refine ⟨?_, ?_, verify_password_hash_password plain p s hs⟩
  · rw [verify_password]
    cases hp : parse_bcrypt h with
    | none => simp
    | some sd => simp
  · intro hnone
    rw [verify_password, hnone]

/-- C5, witness: a malformed hash raises, and a well-formed hash of a
different password verifies to false without raising. -/
theorem verify_password_total_or_raises_witness :
    verify_password "pw" "not-a-bcrypt-hash" = Except.error PasslibError.unknownHash
    ∧ verify_password "pw" (hash_password "secret" "saltsalt") = Except.ok false := by
  have h := verify_password_total_or_raises "pw" "not-a-bcrypt-hash" "secret" "saltsalt"
    (by decide)
  exact ⟨h.2.1 (by decide), (h.2.2).trans (by decide)⟩
